import Mathlib

/-!
Verification of the runner-endpoint module (`runners.go`) of a GitLab REST
client against its natural-language specification.

The module under verification is pure plumbing: each endpoint function
normalizes an identifier, interpolates it into a relative URL path, asks a
shared client object to build a request, executes it, and decodes the JSON
response into a flat record.  The shared client itself (`parseID`,
`NewRequest`, `Do`, `ListOptions`, `Job`, `BuildState`) is not part of the
source file; those pieces are modelled from the specification, as noted on
each such definition.  Everything defined from `runners.go` cites the
corresponding lines.
-/

/-- Errors are plain Go `error` values; only their message is observable here. -/
abbrev GoError := String

/-- A JSON value (wire representation of request/response bodies).
Numbers are restricted to integers, which is all the wire fields of this
module use. -/
inductive Json where
  | null
  | bool (b : Bool)
  | num (n : Int)
  | str (s : String)
  | arr (elems : List Json)
  | obj (fields : List (String × Json))

/-- Field lookup in a JSON object, with `encoding/json` duplicate-key
semantics: the last occurrence of a key wins. -/
def lookupField (fields : List (String × Json)) (key : String) : Option Json :=
  match fields with
  | [] => none
  | (k, v) :: rest =>
    match lookupField rest key with
    | some v2 => some v2
    | none => if k = key then some v else none

/-- Lookup of a key in a JSON value, defined only on objects. -/
def objLookup (j : Json) (key : String) : Option Json :=
  match j with
  | .obj fields => lookupField fields key
  | _ => none

/-- Unmarshal an `int` struct field: a missing key leaves the zero value,
a present key must be a number. -/
def decodeIntField (fields : List (String × Json)) (key : String) : Except GoError Int :=
  match lookupField fields key with
  | none => .ok 0
  | some (.num n) => .ok n
  | some _ => .error ("json: cannot unmarshal value into int field " ++ key)

/-- Unmarshal a `string` struct field: a missing key leaves the zero value. -/
def decodeStringField (fields : List (String × Json)) (key : String) : Except GoError String :=
  match lookupField fields key with
  | none => .ok ""
  | some (.str s) => .ok s
  | some _ => .error ("json: cannot unmarshal value into string field " ++ key)

/-- Unmarshal a `bool` struct field: a missing key leaves the zero value. -/
def decodeBoolField (fields : List (String × Json)) (key : String) : Except GoError Bool :=
  match lookupField fields key with
  | none => .ok false
  | some (.bool b) => .ok b
  | some _ => .error ("json: cannot unmarshal value into bool field " ++ key)

/-- Unmarshal a pointer-to-string-like struct field (`*time.Time` carries an
RFC 3339 string on the wire): missing key or `null` leaves the nil pointer. -/
def decodeOptStringField (fields : List (String × Json)) (key : String) :
    Except GoError (Option String) :=
  match lookupField fields key with
  | none => .ok none
  | some .null => .ok none
  | some (.str s) => .ok (some s)
  | some _ => .error ("json: cannot unmarshal value into pointer field " ++ key)

/-- Decode every element of a JSON array in order, aborting at the first
failure, as `encoding/json` does for slices. -/
def decodeJsonList {α : Type} (dec : Json → Except GoError α) :
    List Json → Except GoError (List α)
  | [] => .ok []
  | x :: xs => do
    let v ← dec x
    let vs ← decodeJsonList dec xs
    .ok (v :: vs)

/-- Unmarshal one element of a `[]string` field. -/
def decodeStringElem (key : String) (j : Json) : Except GoError String :=
  match j with
  | .str s => .ok s
  | _ => .error ("json: cannot unmarshal value into string element of " ++ key)

/-- Unmarshal a `[]string` struct field: missing key or `null` leaves the
nil slice (indistinguishable here from the empty list). -/
def decodeStringListField (fields : List (String × Json)) (key : String) :
    Except GoError (List String) :=
  match lookupField fields key with
  | none => .ok []
  | some .null => .ok []
  | some (.arr xs) => decodeJsonList (decodeStringElem key) xs
  | some _ => .error ("json: cannot unmarshal value into []string field " ++ key)

/-- The dynamic identifier argument (`interface{}` in the source): a Go
`int`, a Go `string`, or a value of any other dynamic type (carrying its
printed representation, which `parseID` embeds into its error message). -/
inductive IDValue where
  | int (n : Int)
  | str (s : String)
  | other (shown : String)

/-- The error message produced when an identifier has an unsupported
dynamic type. -/
def invalidIDError (shown : String) : GoError :=
  "invalid ID type " ++ shown ++ ", the ID must be an int or a string"

/-- Modelled from the spec: the shared identifier-normalization function
(spec sections 2 and 9: "accept identifier of ambiguous type, normalize" /
"an explicit normalization function returning a path-safe string or a typed
error").  A numeric ID becomes its decimal rendering, a string is accepted
unchanged, and any other dynamic type is a normalization error.  The
function itself lives outside `runners.go`. -/
def parseID : IDValue → Except GoError String
  | .int n => .ok (Int.repr n)
  | .str s => .ok s
  | .other shown => .error (invalidIDError shown)

/-- Upper-case hexadecimal digit, as `net/url` uses for percent-escapes. -/
def hexDigit (n : Nat) : Char :=
  if n < 10 then Char.ofNat (48 + n) else Char.ofNat (55 + n)

/-- Bytes that `net/url.QueryEscape` leaves unescaped: ASCII letters,
digits, and `-` `_` `.` `~`. -/
def isUnreservedByte (n : Nat) : Bool :=
  (65 ≤ n && n ≤ 90) || (97 ≤ n && n ≤ 122) || (48 ≤ n && n ≤ 57) ||
  n == 45 || n == 95 || n == 46 || n == 126

/-- UTF-8 encoding of one character, as a list of byte values. -/
def utf8Bytes (c : Char) : List Nat :=
  let n := c.toNat
  if n < 128 then [n]
  else if n < 2048 then [192 + n / 64, 128 + n % 64]
  else if n < 65536 then [224 + n / 4096, 128 + n / 64 % 64, 128 + n % 64]
  else [240 + n / 262144, 128 + n / 4096 % 64, 128 + n / 64 % 64, 128 + n % 64]

/-- Escape one byte the way `net/url.QueryEscape` does: space becomes `+`,
unreserved bytes stay literal, everything else becomes `%XX`. -/
def escapeByte (n : Nat) : String :=
  if n == 32 then "+"
  else if isUnreservedByte n then String.singleton (Char.ofNat n)
  else String.singleton '%' ++ String.singleton (hexDigit (n / 16)) ++
    String.singleton (hexDigit (n % 16))

/-- `net/url.QueryEscape`, used by the source at lines 255, 289 and 320:
percent-encodes every byte of the UTF-8 form of `s` that is not unreserved,
rendering space as `+`. -/
def queryEscape (s : String) : String :=
  String.join ((s.data.flatMap utf8Bytes).map escapeByte)

/-- A GitLab CI runner (source lines 36-44), with its `json` field tags. -/
structure Runner where
  ID : Int
  Description : String
  Active : Bool
  IsShared : Bool
  Name : String
  Online : Bool
  Status : String
deriving DecidableEq, Repr

/-- Marshal a `Runner` per its field tags (`id`, `description`, `active`,
`is_shared`, `name`, `online`, `status`; source lines 37-43): the canonical
wire form of one element of a list-runners response. -/
def encodeRunner (r : Runner) : Json :=
  .obj [("id", .num r.ID), ("description", .str r.Description),
        ("active", .bool r.Active), ("is_shared", .bool r.IsShared),
        ("name", .str r.Name), ("online", .bool r.Online),
        ("status", .str r.Status)]

/-- Unmarshal a `Runner` per its field tags (source lines 37-43).  A JSON
value that is not an object is a decode error, as in `encoding/json`. -/
def decodeRunner (j : Json) : Except GoError Runner :=
  match j with
  | .obj fields => do
    let id ← decodeIntField fields "id"
    let description ← decodeStringField fields "description"
    let active ← decodeBoolField fields "active"
    let isShared ← decodeBoolField fields "is_shared"
    let name ← decodeStringField fields "name"
    let online ← decodeBoolField fields "online"
    let status ← decodeStringField fields "status"
    .ok ⟨id, description, active, isShared, name, online, status⟩
  | _ => .error "json: cannot unmarshal value into Runner"

/-- Unmarshal into a `[]*Runner` target (`var rs []*Runner`): `null` leaves
the nil slice, an array decodes element-wise.  (A `null` array element,
which Go would turn into a nil pointer, is not modelled; no claim concerns
it.) -/
def decodeRunnerListPtr (j : Json) : Except GoError (Option (List Runner)) :=
  match j with
  | .null => .ok none
  | .arr xs => (decodeJsonList decodeRunner xs).map some
  | _ => .error "json: cannot unmarshal value into []*Runner"

/-- One entry of the `Projects` field of a runner-details response: the
anonymous struct at source lines 60-66, with tags `id`, `name`,
`name_with_namespace`, `path`, `path_with_namespace`. -/
structure RunnerProject where
  ID : Int
  Name : String
  NameWithNamespace : String
  Path : String
  PathWithNamespace : String
deriving DecidableEq, Repr

/-- Marshal a `RunnerProject` per its field tags (source lines 61-65). -/
def encodeRunnerProject (p : RunnerProject) : Json :=
  .obj [("id", .num p.ID), ("name", .str p.Name),
        ("name_with_namespace", .str p.NameWithNamespace),
        ("path", .str p.Path),
        ("path_with_namespace", .str p.PathWithNamespace)]

/-- Unmarshal a `RunnerProject` per its field tags (source lines 61-65). -/
def decodeRunnerProject (j : Json) : Except GoError RunnerProject :=
  match j with
  | .obj fields => do
    let id ← decodeIntField fields "id"
    let name ← decodeStringField fields "name"
    let nameWithNamespace ← decodeStringField fields "name_with_namespace"
    let path ← decodeStringField fields "path"
    let pathWithNamespace ← decodeStringField fields "path_with_namespace"
    .ok ⟨id, name, nameWithNamespace, path, pathWithNamespace⟩
  | _ => .error "json: cannot unmarshal value into Projects element"

/-- Full details of a runner (source lines 49-72).  `ContactedAt` is a
`*time.Time` whose wire form is an RFC 3339 string, modelled as
`Option String`; note the `Token` field's tag is the capitalized `Token`
(source line 67). -/
structure RunnersDetails where
  Active : Bool
  Architecture : String
  Description : String
  ID : Int
  IsShared : Bool
  ContactedAt : Option String
  Name : String
  Online : Bool
  Status : String
  Platform : String
  Projects : List RunnerProject
  Token : String
  Revision : String
  TagList : List String
  Version : String
  AccessLevel : String
deriving DecidableEq, Repr

/-- Marshal a `RunnersDetails` per its field tags (source lines 50-71):
the canonical wire form of a runner-details response.  An absent
`ContactedAt` is rendered as `null`. -/
def encodeRunnersDetails (d : RunnersDetails) : Json :=
  .obj [("active", .bool d.Active), ("architecture", .str d.Architecture),
        ("description", .str d.Description), ("id", .num d.ID),
        ("is_shared", .bool d.IsShared),
        ("contacted_at", match d.ContactedAt with | none => .null | some t => .str t),
        ("name", .str d.Name), ("online", .bool d.Online),
        ("status", .str d.Status), ("platform", .str d.Platform),
        ("projects", .arr (d.Projects.map encodeRunnerProject)),
        ("Token", .str d.Token), ("revision", .str d.Revision),
        ("tag_list", .arr (d.TagList.map Json.str)),
        ("version", .str d.Version), ("access_level", .str d.AccessLevel)]

/-- Unmarshal a `RunnersDetails` per its field tags (source lines 50-71);
in particular the token is read from the wire key `Token`. -/
def decodeRunnersDetails (j : Json) : Except GoError RunnersDetails :=
  match j with
  | .obj fields => do
    let active ← decodeBoolField fields "active"
    let architecture ← decodeStringField fields "architecture"
    let description ← decodeStringField fields "description"
    let id ← decodeIntField fields "id"
    let isShared ← decodeBoolField fields "is_shared"
    let contactedAt ← decodeOptStringField fields "contacted_at"
    let name ← decodeStringField fields "name"
    let online ← decodeBoolField fields "online"
    let status ← decodeStringField fields "status"
    let platform ← decodeStringField fields "platform"
    let projects ←
      match lookupField fields "projects" with
      | none => .ok []
      | some .null => .ok []
      | some (.arr xs) => decodeJsonList decodeRunnerProject xs
      | some _ => .error "json: cannot unmarshal value into Projects"
    let token ← decodeStringField fields "Token"
    let revision ← decodeStringField fields "revision"
    let tagList ← decodeStringListField fields "tag_list"
    let version ← decodeStringField fields "version"
    let accessLevel ← decodeStringField fields "access_level"
    .ok ⟨active, architecture, description, id, isShared, contactedAt, name, online,
         status, platform, projects, token, revision, tagList, version, accessLevel⟩
  | _ => .error "json: cannot unmarshal value into RunnersDetails"

/-- Unmarshal into a `*RunnersDetails` target (`var rs *RunnersDetails`,
source line 138): `null` leaves the nil pointer. -/
def decodeRunnersDetailsPtr (j : Json) : Except GoError (Option RunnersDetails) :=
  match j with
  | .null => .ok none
  | .obj fields => (decodeRunnersDetails (.obj fields)).map some
  | _ => .error "json: cannot unmarshal value into *RunnersDetails"

/-- Modelled from the spec: a CI job record (spec section 4.4).  The `Job`
struct is owned by another module of the repository; the runner endpoints
only decode a list of them, so a single representative field suffices. -/
structure Job where
  ID : Int
deriving DecidableEq, Repr

/-- Unmarshal a `Job` (modelled from the spec, see `Job`). -/
def decodeJob (j : Json) : Except GoError Job :=
  match j with
  | .obj fields => (decodeIntField fields "id").map (fun n => ⟨n⟩)
  | _ => .error "json: cannot unmarshal value into Job"

/-- Unmarshal into a `[]*Job` target (`var rs []*Job`, source line 230):
`null` leaves the nil slice. -/
def decodeJobListPtr (j : Json) : Except GoError (Option (List Job)) :=
  match j with
  | .null => .ok none
  | .arr xs => (decodeJsonList decodeJob xs).map some
  | _ => .error "json: cannot unmarshal value into []*Job"

/-- Unmarshal into a `*Runner` target (`var r *Runner`, source line 296):
`null` leaves the nil pointer. -/
def decodeRunnerPtr (j : Json) : Except GoError (Option Runner) :=
  match j with
  | .null => .ok none
  | .obj fields => (decodeRunner (.obj fields)).map some
  | _ => .error "json: cannot unmarshal value into *Runner"

/-- Response metadata (the `*Response` wrapper around `*http.Response`);
modelled from the spec as opaque metadata carrying the HTTP status. -/
structure Response where
  StatusCode : Int
deriving DecidableEq, Repr

/-- The serialized option payload attached to a request: a flat
`key=value` query encoding for GET/DELETE, a JSON body for PUT/POST
(spec section 6). -/
inductive Payload where
  | query (params : List (String × String))
  | body (j : Json)

/-- An HTTP request as the shared client constructs it: method, relative
URL, and the serialized options, if any. -/
structure Request where
  method : String
  url : String
  payload : Option Payload

/-- Outcome of executing a request: a response with a JSON body, or a
transport/HTTP failure carrying whatever response metadata the shared
client chooses to report alongside the error. -/
inductive TransportResult where
  | ok (resp : Response) (responseBody : Json)
  | fail (resp : Option Response) (err : GoError)

/-- Modelled from the spec: the shared `*Client` every endpoint delegates
to (spec sections 2 and 7).  `newRequestErr` injects the
request-construction failures of class (b); `transport` decides the
outcome of executing a request (failure class (c) or a response body). -/
structure Client where
  newRequestErr : String → String → Option Payload → Option GoError
  transport : Request → TransportResult

/-- Modelled from the spec: `Client.NewRequest` (spec section 2, step 3):
either the injected construction failure, or a request carrying exactly
the given method, relative URL and serialized options. -/
def Client.newRequest (c : Client) (method url : String) (payload : Option Payload) :
    Except GoError Request :=
  match c.newRequestErr method url payload with
  | some e => .error e
  | none => .ok ⟨method, url, payload⟩

/-- Modelled from the spec: `Client.Do` with a typed decode target
(spec section 2, step 4): execute the request and decode the response
body into the target, reporting the execute step's response metadata
alongside any failure. -/
def Client.doPtr {α : Type} (c : Client) (req : Request)
    (dec : Json → Except GoError (Option α)) :
    Option α × Option Response × Option GoError :=
  match c.transport req with
  | .fail oresp e => (none, oresp, some e)
  | .ok resp responseBody =>
    match dec responseBody with
    | .error e => (none, some resp, some e)
    | .ok v => (v, some resp, none)

/-- Modelled from the spec: `Client.Do` with a nil decode target, as the
delete-style calls use (spec section 2, step 4: "for delete-style calls,
discards the body"): the response body is never examined. -/
def Client.doDiscard (c : Client) (req : Request) : Option Response × Option GoError :=
  match c.transport req with
  | .fail oresp e => (oresp, some e)
  | .ok resp _ => (some resp, none)

/-- Modelled from the spec: the shared pagination options embedded in every
list-options struct (spec section 4.1, "paginated via a shared list-options
convention"), a `page` and a `per_page` integer, both `omitempty`. -/
structure ListOptions where
  Page : Int
  PerPage : Int
deriving DecidableEq, Repr

/-- Query encoding of `ListOptions` with `omitempty` suppression: an unset
(zero) page or page size contributes no parameter. -/
def ListOptions.queryParams (o : ListOptions) : List (String × String) :=
  (if o.Page = 0 then [] else [("page", Int.repr o.Page)]) ++
  (if o.PerPage = 0 then [] else [("per_page", Int.repr o.PerPage)])

/-- Options of `ListRunners` and `ListAllRunners` (source lines 78-81):
embedded `ListOptions` plus an optional `scope` filter. -/
structure ListRunnersOptions where
  listOptions : ListOptions
  Scope : Option String
deriving DecidableEq, Repr

/-- Query encoding of `ListRunnersOptions` per its `url` tags (source
line 80): `scope` is omitted when unset. -/
def ListRunnersOptions.queryParams (o : ListRunnersOptions) : List (String × String) :=
  o.listOptions.queryParams ++
  (match o.Scope with | none => [] | some s => [("scope", s)])

/-- Modelled from the spec: the job-status filter enum (spec section 4.4,
"one of running, success, failed, canceled"); a string enum owned by
another module. -/
abbrev BuildState := String

/-- Options of `ListRunnerJobs` (source lines 209-212): embedded
`ListOptions` plus an optional `status` filter. -/
structure ListRunnersJobsOptions where
  listOptions : ListOptions
  Status : Option BuildState
deriving DecidableEq, Repr

/-- Query encoding of `ListRunnersJobsOptions` per its `url` tags (source
line 211): `status` is omitted when unset. -/
def ListRunnersJobsOptions.queryParams (o : ListRunnersJobsOptions) : List (String × String) :=
  o.listOptions.queryParams ++
  (match o.Status with | none => [] | some s => [("status", s)])

/-- Options of `UpdateRunnersDetails` (source lines 151-158): every field
is an optional pointer or a slice, all tagged `omitempty`. -/
structure UpdateRunnersDetailsOptions where
  Description : Option String
  Active : Option Bool
  TagList : List String
  RunUntagged : Option Bool
  Locked : Option Bool
  AccessLevel : Option String
deriving DecidableEq, Repr

/-- JSON-body fields of `UpdateRunnersDetailsOptions` per its `json` tags
(source lines 152-157): unset pointers and an empty tag list are omitted. -/
def UpdateRunnersDetailsOptions.bodyFields (o : UpdateRunnersDetailsOptions) :
    List (String × Json) :=
  (match o.Description with | none => [] | some s => [("description", Json.str s)]) ++
  (match o.Active with | none => [] | some b => [("active", Json.bool b)]) ++
  (if o.TagList = [] then [] else [("tag_list", Json.arr (o.TagList.map Json.str))]) ++
  (match o.RunUntagged with | none => [] | some b => [("run_untagged", Json.bool b)]) ++
  (match o.Locked with | none => [] | some b => [("locked", Json.bool b)]) ++
  (match o.AccessLevel with | none => [] | some s => [("access_level", Json.str s)])

/-- Marshalled PUT body of `UpdateRunnersDetailsOptions`. -/
def UpdateRunnersDetailsOptions.jsonBody (o : UpdateRunnersDetailsOptions) : Json :=
  .obj o.bodyFields

/-- `ListProjectRunnersOptions` is declared as an alias of
`ListRunnersOptions` (source line 244). -/
abbrev ListProjectRunnersOptions := ListRunnersOptions

/-- Options of `EnableProjectRunner` (source lines 276-278): a single
mandatory `runner_id` field with no `omitempty`. -/
structure EnableProjectRunnerOptions where
  RunnerID : Int
deriving DecidableEq, Repr

/-- Marshalled POST body of `EnableProjectRunnerOptions` per its `json`
tag (source line 277): `runner_id` is always serialized, the zero value
included, since the tag carries no `omitempty`. -/
def EnableProjectRunnerOptions.jsonBody (o : EnableProjectRunnerOptions) : Json :=
  .obj [("runner_id", Json.num o.RunnerID)]

/-- Serialize an optional options argument into a query payload; a nil
options pointer contributes nothing. -/
def queryPayload {α : Type} (encode : α → List (String × String)) :
    Option α → Option Payload
  | none => none
  | some o => some (.query (encode o))

/-- Serialize an optional options argument into a JSON-body payload; a nil
options pointer contributes nothing. -/
def jsonPayload {α : Type} (encode : α → Json) : Option α → Option Payload
  | none => none
  | some o => some (.body (encode o))

/-- Path built by `GetRunnerDetails`, source line 131:
`fmt.Sprintf("runners/%s", runner)` — no percent-encoding. -/
def getRunnerDetailsPath (runner : String) : String := "runners/" ++ runner

/-- Path built by `UpdateRunnersDetails`, source line 169:
`fmt.Sprintf("runners/%s", runner)` — no percent-encoding. -/
def updateRunnersDetailsPath (runner : String) : String := "runners/" ++ runner

/-- Path built by `RemoveARunner`, source line 194:
`fmt.Sprintf("runners/%s", runner)` — no percent-encoding. -/
def removeARunnerPath (runner : String) : String := "runners/" ++ runner

/-- Path built by `ListRunnerJobs`, source line 223:
`fmt.Sprintf("runners/%s/jobs", runner)` — no percent-encoding. -/
def listRunnerJobsPath (runner : String) : String := "runners/" ++ runner ++ "/jobs"

/-- Path built by `ListProjectRunners`, source line 255:
`fmt.Sprintf("projects/%s/runners", url.QueryEscape(project))`. -/
def listProjectRunnersPath (project : String) : String :=
  "projects/" ++ queryEscape project ++ "/runners"

/-- Path built by `EnableProjectRunner`, source line 289:
`fmt.Sprintf("projects/%s/runners", url.QueryEscape(project))`. -/
def enableProjectRunnerPath (project : String) : String :=
  "projects/" ++ queryEscape project ++ "/runners"

/-- Path built by `DisableProjectRunner`, source line 320:
`fmt.Sprintf("projects/%s/runners/%s", url.QueryEscape(project),
url.QueryEscape(runner))`. -/
def disableProjectRunnerPath (project runner : String) : String :=
  "projects/" ++ queryEscape project ++ "/runners/" ++ queryEscape runner

/-- The runner service (source lines 29-31): a handle on the shared client. -/
structure RunnersService where
  client : Client

/-- The error check every payload-returning endpoint performs on the
execute step (`if err != nil { return nil, resp, err }; return rs, resp,
err`, e.g. source lines 95-99): on failure the decoded value is explicitly
replaced by nil. -/
def maskOnErr {α : Type} (t : Option α × Option Response × Option GoError) :
    Option α × Option Response × Option GoError :=
  match t with
  | (_, resp, some err) => (none, resp, some err)
  | (rs, resp, none) => (rs, resp, none)

/-- `ListRunners` (source lines 87-100): GET `runners` with the list
options as query, decoding a `[]*Runner`. -/
def RunnersService.ListRunners (s : RunnersService) (opt : Option ListRunnersOptions) :
    Option (List Runner) × Option Response × Option GoError :=
  match s.client.newRequest "GET" "runners"
      (queryPayload ListRunnersOptions.queryParams opt) with
  | .error err => (none, none, some err)
  | .ok req =>
    maskOnErr (s.client.doPtr req decodeRunnerListPtr)

/-- `ListAllRunners` (source lines 107-120): GET `runners/all` with the
list options as query, decoding a `[]*Runner`. -/
def RunnersService.ListAllRunners (s : RunnersService) (opt : Option ListRunnersOptions) :
    Option (List Runner) × Option Response × Option GoError :=
  match s.client.newRequest "GET" "runners/all"
      (queryPayload ListRunnersOptions.queryParams opt) with
  | .error err => (none, none, some err)
  | .ok req =>
    maskOnErr (s.client.doPtr req decodeRunnerListPtr)

/-- `GetRunnerDetails` (source lines 126-145): normalize the runner
identifier, GET `runners/{id}`, decode a `*RunnersDetails`. -/
def RunnersService.GetRunnerDetails (s : RunnersService) (rid : IDValue) :
    Option RunnersDetails × Option Response × Option GoError :=
  match parseID rid with
  | .error err => (none, none, some err)
  | .ok runner =>
    match s.client.newRequest "GET" (getRunnerDetailsPath runner) none with
    | .error err => (none, none, some err)
    | .ok req =>
      maskOnErr (s.client.doPtr req decodeRunnersDetailsPtr)

/-- `UpdateRunnersDetails` (source lines 164-183): normalize the runner
identifier, PUT `runners/{id}` with the update options as JSON body,
decode a `*RunnersDetails`. -/
def RunnersService.UpdateRunnersDetails (s : RunnersService) (rid : IDValue)
    (opt : Option UpdateRunnersDetailsOptions) :
    Option RunnersDetails × Option Response × Option GoError :=
  match parseID rid with
  | .error err => (none, none, some err)
  | .ok runner =>
    match s.client.newRequest "PUT" (updateRunnersDetailsPath runner)
        (jsonPayload UpdateRunnersDetailsOptions.jsonBody opt) with
    | .error err => (none, none, some err)
    | .ok req =>
      maskOnErr (s.client.doPtr req decodeRunnersDetailsPtr)

/-- `RemoveARunner` (source lines 189-202): normalize the runner
identifier, DELETE `runners/{id}`, discard the body. -/
def RunnersService.RemoveARunner (s : RunnersService) (rid : IDValue) :
    Option Response × Option GoError :=
  match parseID rid with
  | .error err => (none, some err)
  | .ok runner =>
    match s.client.newRequest "DELETE" (removeARunnerPath runner) none with
    | .error err => (none, some err)
    | .ok req => s.client.doDiscard req

/-- `ListRunnerJobs` (source lines 218-237): normalize the runner
identifier, GET `runners/{id}/jobs` with the job options as query,
decode a `[]*Job`. -/
def RunnersService.ListRunnerJobs (s : RunnersService) (rid : IDValue)
    (opt : Option ListRunnersJobsOptions) :
    Option (List Job) × Option Response × Option GoError :=
  match parseID rid with
  | .error err => (none, none, some err)
  | .ok runner =>
    match s.client.newRequest "GET" (listRunnerJobsPath runner)
        (queryPayload ListRunnersJobsOptions.queryParams opt) with
    | .error err => (none, none, some err)
    | .ok req =>
      maskOnErr (s.client.doPtr req decodeJobListPtr)

/-- `ListProjectRunners` (source lines 250-269): normalize the project
identifier, GET `projects/{id}/runners` (project id percent-encoded) with
the list options as query, decode a `[]*Runner`. -/
def RunnersService.ListProjectRunners (s : RunnersService) (pid : IDValue)
    (opt : Option ListProjectRunnersOptions) :
    Option (List Runner) × Option Response × Option GoError :=
  match parseID pid with
  | .error err => (none, none, some err)
  | .ok project =>
    match s.client.newRequest "GET" (listProjectRunnersPath project)
        (queryPayload ListRunnersOptions.queryParams opt) with
    | .error err => (none, none, some err)
    | .ok req =>
      maskOnErr (s.client.doPtr req decodeRunnerListPtr)

/-- `EnableProjectRunner` (source lines 284-303): normalize the project
identifier, POST `projects/{id}/runners` (project id percent-encoded) with
the enable payload as JSON body, decode a `*Runner`. -/
def RunnersService.EnableProjectRunner (s : RunnersService) (pid : IDValue)
    (opt : Option EnableProjectRunnerOptions) :
    Option Runner × Option Response × Option GoError :=
  match parseID pid with
  | .error err => (none, none, some err)
  | .ok project =>
    match s.client.newRequest "POST" (enableProjectRunnerPath project)
        (jsonPayload EnableProjectRunnerOptions.jsonBody opt) with
    | .error err => (none, none, some err)
    | .ok req =>
      maskOnErr (s.client.doPtr req decodeRunnerPtr)

/-- `DisableProjectRunner` (source lines 309-328): normalize the project
identifier, then the runner identifier, DELETE
`projects/{id}/runners/{runner_id}` (both percent-encoded), discard the
body. -/
def RunnersService.DisableProjectRunner (s : RunnersService) (pid rid : IDValue) :
    Option Response × Option GoError :=
  match parseID pid with
  | .error err => (none, some err)
  | .ok project =>
    match parseID rid with
    | .error err => (none, some err)
    | .ok runner =>
      match s.client.newRequest "DELETE" (disableProjectRunnerPath project runner) none with
      | .error err => (none, some err)
      | .ok req => s.client.doDiscard req

/-- The shared request/execute/decode tail every payload-returning endpoint
follows, phrased against an explicit method and URL: build the request,
execute it, decode, and nil the payload on any failure.  Used by the
theorems to state which concrete method and path template an endpoint
realizes. -/
def runEndpoint {α : Type} (c : Client) (method url : String) (payload : Option Payload)
    (dec : Json → Except GoError (Option α)) :
    Option α × Option Response × Option GoError :=
  match c.newRequest method url payload with
  | .error err => (none, none, some err)
  | .ok req =>
    maskOnErr (c.doPtr req dec)

/-- The shared request/execute tail of the delete-style endpoints, phrased
against an explicit method and URL. -/
def runEndpointNoBody (c : Client) (method url : String) :
    Option Response × Option GoError :=
  match c.newRequest method url none with
  | .error err => (none, some err)
  | .ok req => c.doDiscard req

/-- Outcome metadata of the execute step, separated from the response body:
used to compare two clients that agree on everything except the bodies
they return. -/
inductive ExecMeta where
  | ok (resp : Response)
  | fail (resp : Option Response) (err : GoError)

/-- A transport assembled from execute-step metadata and a body choice. -/
def mkTransport (meta : Request → ExecMeta) (bodies : Request → Json) :
    Request → TransportResult :=
  fun r =>
    match meta r with
    | .ok resp => .ok resp (bodies r)
    | .fail oresp e => .fail oresp e

/-- A probe client whose execute step always fails, echoing the request
URL as the error message: the returned error reveals exactly which path the
endpoint constructed. -/
def echoPathClient : Client :=
  ⟨fun _ _ _ => none, fun r => .fail none r.url⟩

theorem decodeRunner_encodeRunner (r : Runner) : decodeRunner (encodeRunner r) = .ok r := rfl

theorem decodeJsonList_map {α : Type} (dec : Json → Except GoError α) (enc : α → Json)
    (h : ∀ a, dec (enc a) = .ok a) (xs : List α) :
    decodeJsonList dec (xs.map enc) = .ok xs := by
  induction xs with
  | nil => rfl
  | cons x xs ih =>
    simp only [List.map, decodeJsonList, h x, ih]
    rfl

theorem decodeRunnerProject_encode (p : RunnerProject) :
    decodeRunnerProject (encodeRunnerProject p) = .ok p := rfl

theorem decodeRunnersDetails_encode (d : RunnersDetails) :
    decodeRunnersDetails (encodeRunnersDetails d) = .ok d := by
  cases d with
  | mk A Ar De Idf Is Ca Na On St Pl Pr To Re Tl Ve Ac =>
    cases Ca <;>
      simp +decide [decodeRunnersDetails, encodeRunnersDetails, lookupField, decodeBoolField,
        decodeStringField, decodeIntField, decodeOptStringField, decodeStringListField,
        decodeJsonList_map decodeRunnerProject encodeRunnerProject decodeRunnerProject_encode,
        decodeJsonList_map (decodeStringElem "tag_list") Json.str (fun a => rfl)]
    all_goals rfl

theorem maskOnErr_nil {α : Type} (t : Option α × Option Response × Option GoError) :
    (maskOnErr t).1 = none ∨ (maskOnErr t).2.2 = none := by
  rcases t with ⟨v, resp, err⟩
  cases err with
  | none => exact Or.inr rfl
  | some e => exact Or.inl rfl

theorem runEndpoint_nil_on_err {α : Type} (c : Client) (method url : String)
    (payload : Option Payload) (dec : Json → Except GoError (Option α)) :
    (runEndpoint c method url payload dec).1 = none ∨
    (runEndpoint c method url payload dec).2.2 = none := by
  unfold runEndpoint
  cases c.newRequest method url payload with
  | error e => exact Or.inl rfl
  | ok req => exact maskOnErr_nil (c.doPtr req dec)

theorem doDiscard_mkTransport (nre : String → String → Option Payload → Option GoError)
    (meta : Request → ExecMeta) (b : Request → Json) (req : Request) :
    Client.doDiscard ⟨nre, mkTransport meta b⟩ req =
      (match meta req with
       | .ok resp => (some resp, none)
       | .fail oresp e => (oresp, some e)) := by
  rcases h : meta req with resp | ⟨oresp, e⟩ <;>
    simp only [Client.doDiscard, mkTransport, h]

theorem runEndpointNoBody_body_irrel
    (nre : String → String → Option Payload → Option GoError)
    (meta : Request → ExecMeta) (b₁ b₂ : Request → Json) (method url : String) :
    runEndpointNoBody ⟨nre, mkTransport meta b₁⟩ method url =
    runEndpointNoBody ⟨nre, mkTransport meta b₂⟩ method url := by
  simp only [runEndpointNoBody, Client.newRequest]
  cases nre method url none with
  | some e => rfl
  | none =>
    show Client.doDiscard ⟨nre, mkTransport meta b₁⟩ ⟨method, url, none⟩ =
         Client.doDiscard ⟨nre, mkTransport meta b₂⟩ ⟨method, url, none⟩
    rw [doDiscard_mkTransport, doDiscard_mkTransport]

theorem listRunnersOptions_keys (o : ListRunnersOptions) :
    (("page" ∈ o.queryParams.map Prod.fst) ↔ o.listOptions.Page ≠ 0) ∧
    (("per_page" ∈ o.queryParams.map Prod.fst) ↔ o.listOptions.PerPage ≠ 0) ∧
    (("scope" ∈ o.queryParams.map Prod.fst) ↔ o.Scope ≠ none) := by
  obtain ⟨⟨p, pp⟩, sc⟩ := o
  by_cases hp : p = 0 <;> by_cases hpp : pp = 0 <;> cases sc <;>
    simp +decide [ListRunnersOptions.queryParams, ListOptions.queryParams, hp, hpp]

theorem listRunnersJobsOptions_keys (o : ListRunnersJobsOptions) :
    (("page" ∈ o.queryParams.map Prod.fst) ↔ o.listOptions.Page ≠ 0) ∧
    (("per_page" ∈ o.queryParams.map Prod.fst) ↔ o.listOptions.PerPage ≠ 0) ∧
    (("status" ∈ o.queryParams.map Prod.fst) ↔ o.Status ≠ none) := by
  obtain ⟨⟨p, pp⟩, st⟩ := o
  by_cases hp : p = 0 <;> by_cases hpp : pp = 0 <;> cases st <;>
    simp +decide [ListRunnersJobsOptions.queryParams, ListOptions.queryParams, hp, hpp]

theorem updateRunnersDetailsOptions_keys (o : UpdateRunnersDetailsOptions) :
    (("description" ∈ o.bodyFields.map Prod.fst) ↔ o.Description ≠ none) ∧
    (("active" ∈ o.bodyFields.map Prod.fst) ↔ o.Active ≠ none) ∧
    (("tag_list" ∈ o.bodyFields.map Prod.fst) ↔ o.TagList ≠ []) ∧
    (("run_untagged" ∈ o.bodyFields.map Prod.fst) ↔ o.RunUntagged ≠ none) ∧
    (("locked" ∈ o.bodyFields.map Prod.fst) ↔ o.Locked ≠ none) ∧
    (("access_level" ∈ o.bodyFields.map Prod.fst) ↔ o.AccessLevel ≠ none) := by
  obtain ⟨de, ac, tl, ru, lo, al⟩ := o
  cases de <;> cases ac <;> cases tl <;> cases ru <;> cases lo <;> cases al <;>
    simp +decide [UpdateRunnersDetailsOptions.bodyFields]

/-- C1 (counterexample): the claim — that every endpoint function accepting
a string identifier percent-encodes it before path interpolation — is false
for `GetRunnerDetails`.  For the valid string identifier `a/b`, which
contains the reserved character `/`, the request path handed to the
transport is the raw `runners/a/b` (observed via a probe client that echoes
the request URL as its error), not the percent-encoded `runners/a%2Fb` that
`url.QueryEscape` would produce. -/
theorem c1_escaping_counterexample :
    RunnersService.GetRunnerDetails ⟨echoPathClient⟩ (.str "a/b") =
      (none, none, some "runners/a/b") ∧
    queryEscape "a/b" = "a%2Fb" ∧
    ("runners/a/b" : String) ≠ "runners/a%2Fb" := by
  refine ⟨rfl, rfl, ?_⟩
  decide

/-- C1 (amended): only the project-scoped endpoints percent-encode their
string identifiers.  For every client and every string identifier,
`ListProjectRunners`, `EnableProjectRunner` and `DisableProjectRunner`
interpolate `url.QueryEscape` of the identifier (`DisableProjectRunner`
escapes both identifiers), while `GetRunnerDetails`,
`UpdateRunnersDetails`, `RemoveARunner` and `ListRunnerJobs` interpolate
the normalized identifier into the path unencoded. -/
theorem c1_escaping_amended (c : Client) (s t : String)
    (uopt : Option UpdateRunnersDetailsOptions) (jopt : Option ListRunnersJobsOptions)
    (popt : Option ListProjectRunnersOptions) (eopt : Option EnableProjectRunnerOptions) :
    RunnersService.GetRunnerDetails ⟨c⟩ (.str s) =
      runEndpoint c "GET" ("runners/" ++ s) none decodeRunnersDetailsPtr ∧
    RunnersService.UpdateRunnersDetails ⟨c⟩ (.str s) uopt =
      runEndpoint c "PUT" ("runners/" ++ s)
        (jsonPayload UpdateRunnersDetailsOptions.jsonBody uopt) decodeRunnersDetailsPtr ∧
    RunnersService.RemoveARunner ⟨c⟩ (.str s) =
      runEndpointNoBody c "DELETE" ("runners/" ++ s) ∧
    RunnersService.ListRunnerJobs ⟨c⟩ (.str s) jopt =
      runEndpoint c "GET" ("runners/" ++ s ++ "/jobs")
        (queryPayload ListRunnersJobsOptions.queryParams jopt) decodeJobListPtr ∧
    RunnersService.ListProjectRunners ⟨c⟩ (.str s) popt =
      runEndpoint c "GET" ("projects/" ++ queryEscape s ++ "/runners")
        (queryPayload ListRunnersOptions.queryParams popt) decodeRunnerListPtr ∧
    RunnersService.EnableProjectRunner ⟨c⟩ (.str s) eopt =
      runEndpoint c "POST" ("projects/" ++ queryEscape s ++ "/runners")
        (jsonPayload EnableProjectRunnerOptions.jsonBody eopt) decodeRunnerPtr ∧
    RunnersService.DisableProjectRunner ⟨c⟩ (.str s) (.str t) =
      runEndpointNoBody c "DELETE"
        ("projects/" ++ queryEscape s ++ "/runners/" ++ queryEscape t) :=
  ⟨rfl, rfl, rfl, rfl, rfl, rfl, rfl⟩

/-- C2: for every function accepting an identifier, a normalization failure
(any identifier of unsupported dynamic type) short-circuits: the function
returns exactly the `parseID` error with a nil decoded value and nil
response metadata.  The result is the same for every client, so no request
is built and no network call is made. -/
theorem c2_parse_short_circuit (c : Client) (shown : String) (rid2 : IDValue)
    (uopt : Option UpdateRunnersDetailsOptions) (jopt : Option ListRunnersJobsOptions)
    (popt : Option ListProjectRunnersOptions) (eopt : Option EnableProjectRunnerOptions) :
    RunnersService.GetRunnerDetails ⟨c⟩ (.other shown) =
      (none, none, some (invalidIDError shown)) ∧
    RunnersService.UpdateRunnersDetails ⟨c⟩ (.other shown) uopt =
      (none, none, some (invalidIDError shown)) ∧
    RunnersService.RemoveARunner ⟨c⟩ (.other shown) =
      (none, some (invalidIDError shown)) ∧
    RunnersService.ListRunnerJobs ⟨c⟩ (.other shown) jopt =
      (none, none, some (invalidIDError shown)) ∧
    RunnersService.ListProjectRunners ⟨c⟩ (.other shown) popt =
      (none, none, some (invalidIDError shown)) ∧
    RunnersService.EnableProjectRunner ⟨c⟩ (.other shown) eopt =
      (none, none, some (invalidIDError shown)) ∧
    RunnersService.DisableProjectRunner ⟨c⟩ (.other shown) rid2 =
      (none, some (invalidIDError shown)) :=
  ⟨rfl, rfl, rfl, rfl, rfl, rfl, rfl⟩

/-- C9: `DisableProjectRunner` normalizes the project identifier first:
when it fails, the returned error is the project identifier's error and the
result is the same for every runner identifier (valid or invalid) and every
client, so the runner identifier is never parsed and cannot influence the
returned error. -/
theorem c9_project_id_parsed_first (c : Client) (shown : String) (rid : IDValue) :
    RunnersService.DisableProjectRunner ⟨c⟩ (.other shown) rid =
      (none, some (invalidIDError shown)) := rfl

/-- C3: for every endpoint function with a valid identifier (project id 42,
runner id 7) and any option set, the behavior coincides, for every client,
with executing exactly the documented method and path template:
GET `runners`, GET `runners/all`, GET `runners/42`, PUT `runners/42`,
DELETE `runners/42`, GET `runners/42/jobs`, GET `projects/42/runners`,
POST `projects/42/runners`, and DELETE `projects/42/runners/7`. -/
theorem c3_method_path_templates (c : Client)
    (lopt : Option ListRunnersOptions) (uopt : Option UpdateRunnersDetailsOptions)
    (jopt : Option ListRunnersJobsOptions) (popt : Option ListProjectRunnersOptions)
    (eopt : Option EnableProjectRunnerOptions) :
    RunnersService.ListRunners ⟨c⟩ lopt =
      runEndpoint c "GET" "runners"
        (queryPayload ListRunnersOptions.queryParams lopt) decodeRunnerListPtr ∧
    RunnersService.ListAllRunners ⟨c⟩ lopt =
      runEndpoint c "GET" "runners/all"
        (queryPayload ListRunnersOptions.queryParams lopt) decodeRunnerListPtr ∧
    RunnersService.GetRunnerDetails ⟨c⟩ (.int 42) =
      runEndpoint c "GET" "runners/42" none decodeRunnersDetailsPtr ∧
    RunnersService.UpdateRunnersDetails ⟨c⟩ (.int 42) uopt =
      runEndpoint c "PUT" "runners/42"
        (jsonPayload UpdateRunnersDetailsOptions.jsonBody uopt) decodeRunnersDetailsPtr ∧
    RunnersService.RemoveARunner ⟨c⟩ (.int 42) =
      runEndpointNoBody c "DELETE" "runners/42" ∧
    RunnersService.ListRunnerJobs ⟨c⟩ (.int 42) jopt =
      runEndpoint c "GET" "runners/42/jobs"
        (queryPayload ListRunnersJobsOptions.queryParams jopt) decodeJobListPtr ∧
    RunnersService.ListProjectRunners ⟨c⟩ (.int 42) popt =
      runEndpoint c "GET" "projects/42/runners"
        (queryPayload ListRunnersOptions.queryParams popt) decodeRunnerListPtr ∧
    RunnersService.EnableProjectRunner ⟨c⟩ (.int 42) eopt =
      runEndpoint c "POST" "projects/42/runners"
        (jsonPayload EnableProjectRunnerOptions.jsonBody eopt) decodeRunnerPtr ∧
    RunnersService.DisableProjectRunner ⟨c⟩ (.int 42) (.int 7) =
      runEndpointNoBody c "DELETE" "projects/42/runners/7" :=
  ⟨rfl, rfl, rfl, rfl, rfl, rfl, rfl, rfl, rfl⟩

/-- C4 (counterexample): the claim — that every field left unset is omitted
from the serialized body — is false for `EnableProjectRunnerOptions`: its
`runner_id` field carries no `omitempty`, so the zero-value (unset) struct
still serializes the key `runner_id`, as the number 0, instead of omitting
it. -/
theorem c4_omitempty_counterexample :
    objLookup (EnableProjectRunnerOptions.jsonBody ⟨0⟩) "runner_id" =
      some (Json.num 0) := rfl

/-- C4 (amended): in `ListRunnersOptions`, `ListRunnersJobsOptions` and
`UpdateRunnersDetailsOptions` every optional field's key appears in the
serialized query/body exactly when the field is set, so unset fields are
omitted rather than sent as null, empty or zero; but the enable payload
`EnableProjectRunnerOptions` is excluded: its mandatory `runner_id` field
is always serialized, whatever its value. -/
theorem c4_omitempty_amended (o₁ : ListRunnersOptions) (o₂ : ListRunnersJobsOptions)
    (o₃ : UpdateRunnersDetailsOptions) (o₄ : EnableProjectRunnerOptions) :
    (("page" ∈ o₁.queryParams.map Prod.fst) ↔ o₁.listOptions.Page ≠ 0) ∧
    (("per_page" ∈ o₁.queryParams.map Prod.fst) ↔ o₁.listOptions.PerPage ≠ 0) ∧
    (("scope" ∈ o₁.queryParams.map Prod.fst) ↔ o₁.Scope ≠ none) ∧
    (("page" ∈ o₂.queryParams.map Prod.fst) ↔ o₂.listOptions.Page ≠ 0) ∧
    (("per_page" ∈ o₂.queryParams.map Prod.fst) ↔ o₂.listOptions.PerPage ≠ 0) ∧
    (("status" ∈ o₂.queryParams.map Prod.fst) ↔ o₂.Status ≠ none) ∧
    (("description" ∈ o₃.bodyFields.map Prod.fst) ↔ o₃.Description ≠ none) ∧
    (("active" ∈ o₃.bodyFields.map Prod.fst) ↔ o₃.Active ≠ none) ∧
    (("tag_list" ∈ o₃.bodyFields.map Prod.fst) ↔ o₃.TagList ≠ []) ∧
    (("run_untagged" ∈ o₃.bodyFields.map Prod.fst) ↔ o₃.RunUntagged ≠ none) ∧
    (("locked" ∈ o₃.bodyFields.map Prod.fst) ↔ o₃.Locked ≠ none) ∧
    (("access_level" ∈ o₃.bodyFields.map Prod.fst) ↔ o₃.AccessLevel ≠ none) ∧
    objLookup o₄.jsonBody "runner_id" = some (Json.num o₄.RunnerID) := by
  obtain ⟨h₁, h₂, h₃⟩ := listRunnersOptions_keys o₁
  obtain ⟨h₄, h₅, h₆⟩ := listRunnersJobsOptions_keys o₂
  obtain ⟨h₇, h₈, h₉, h₁₀, h₁₁, h₁₂⟩ := updateRunnersDetailsOptions_keys o₃
  exact ⟨h₁, h₂, h₃, h₄, h₅, h₆, h₇, h₈, h₉, h₁₀, h₁₁, h₁₂, rfl⟩

/-- C5: the delete-style calls return no decoded payload — their result is
only response metadata and an error — and the response body is discarded,
never deserialized: two clients that agree on construction failures and on
the execute step's metadata, and differ arbitrarily in the response bodies
they produce, yield identical results from `RemoveARunner` and
`DisableProjectRunner` at every identifier. -/
theorem c5_delete_body_discarded
    (nre : String → String → Option Payload → Option GoError)
    (meta : Request → ExecMeta) (b₁ b₂ : Request → Json) (rid pid : IDValue) :
    RunnersService.RemoveARunner ⟨⟨nre, mkTransport meta b₁⟩⟩ rid =
      RunnersService.RemoveARunner ⟨⟨nre, mkTransport meta b₂⟩⟩ rid ∧
    RunnersService.DisableProjectRunner ⟨⟨nre, mkTransport meta b₁⟩⟩ pid rid =
      RunnersService.DisableProjectRunner ⟨⟨nre, mkTransport meta b₂⟩⟩ pid rid := by
  constructor
  · cases rid with
    | int n =>
      exact runEndpointNoBody_body_irrel nre meta b₁ b₂ "DELETE"
        (removeARunnerPath (Int.repr n))
    | str s =>
      exact runEndpointNoBody_body_irrel nre meta b₁ b₂ "DELETE" (removeARunnerPath s)
    | other shown => rfl
  · cases pid with
    | other shown => rfl
    | int n =>
      cases rid with
      | other shown => rfl
      | int k =>
        exact runEndpointNoBody_body_irrel nre meta b₁ b₂ "DELETE"
          (disableProjectRunnerPath (Int.repr n) (Int.repr k))
      | str u =>
        exact runEndpointNoBody_body_irrel nre meta b₁ b₂ "DELETE"
          (disableProjectRunnerPath (Int.repr n) u)
    | str v =>
      cases rid with
      | other shown => rfl
      | int k =>
        exact runEndpointNoBody_body_irrel nre meta b₁ b₂ "DELETE"
          (disableProjectRunnerPath v (Int.repr k))
      | str u =>
        exact runEndpointNoBody_body_irrel nre meta b₁ b₂ "DELETE"
          (disableProjectRunnerPath v u)

/-- C6: every endpoint function that returns a decoded value is
all-or-nothing: for every client, identifier and option set, either the
decoded value it returns is nil or the error it returns is nil — a non-nil
decoded result is never returned together with an error.  (The delete-style
calls return no decoded value at all.) -/
theorem c6_all_or_nothing (c : Client) (rid : IDValue)
    (lopt : Option ListRunnersOptions) (uopt : Option UpdateRunnersDetailsOptions)
    (jopt : Option ListRunnersJobsOptions) (popt : Option ListProjectRunnersOptions)
    (eopt : Option EnableProjectRunnerOptions) :
    ((RunnersService.ListRunners ⟨c⟩ lopt).1 = none ∨
      (RunnersService.ListRunners ⟨c⟩ lopt).2.2 = none) ∧
    ((RunnersService.ListAllRunners ⟨c⟩ lopt).1 = none ∨
      (RunnersService.ListAllRunners ⟨c⟩ lopt).2.2 = none) ∧
    ((RunnersService.GetRunnerDetails ⟨c⟩ rid).1 = none ∨
      (RunnersService.GetRunnerDetails ⟨c⟩ rid).2.2 = none) ∧
    ((RunnersService.UpdateRunnersDetails ⟨c⟩ rid uopt).1 = none ∨
      (RunnersService.UpdateRunnersDetails ⟨c⟩ rid uopt).2.2 = none) ∧
    ((RunnersService.ListRunnerJobs ⟨c⟩ rid jopt).1 = none ∨
      (RunnersService.ListRunnerJobs ⟨c⟩ rid jopt).2.2 = none) ∧
    ((RunnersService.ListProjectRunners ⟨c⟩ rid popt).1 = none ∨
      (RunnersService.ListProjectRunners ⟨c⟩ rid popt).2.2 = none) ∧
    ((RunnersService.EnableProjectRunner ⟨c⟩ rid eopt).1 = none ∨
      (RunnersService.EnableProjectRunner ⟨c⟩ rid eopt).2.2 = none) := by
  refine ⟨?_, ?_, ?_, ?_, ?_, ?_, ?_⟩
  · exact runEndpoint_nil_on_err c "GET" "runners" _ decodeRunnerListPtr
  · exact runEndpoint_nil_on_err c "GET" "runners/all" _ decodeRunnerListPtr
  · cases rid with
    | int n =>
      exact runEndpoint_nil_on_err c "GET" (getRunnerDetailsPath (Int.repr n)) none
        decodeRunnersDetailsPtr
    | str s =>
      exact runEndpoint_nil_on_err c "GET" (getRunnerDetailsPath s) none
        decodeRunnersDetailsPtr
    | other shown => exact Or.inl rfl
  · cases rid with
    | int n =>
      exact runEndpoint_nil_on_err c "PUT" (updateRunnersDetailsPath (Int.repr n)) _
        decodeRunnersDetailsPtr
    | str s =>
      exact runEndpoint_nil_on_err c "PUT" (updateRunnersDetailsPath s) _
        decodeRunnersDetailsPtr
    | other shown => exact Or.inl rfl
  · cases rid with
    | int n =>
      exact runEndpoint_nil_on_err c "GET" (listRunnerJobsPath (Int.repr n)) _ decodeJobListPtr
    | str s =>
      exact runEndpoint_nil_on_err c "GET" (listRunnerJobsPath s) _ decodeJobListPtr
    | other shown => exact Or.inl rfl
  · cases rid with
    | int n =>
      exact runEndpoint_nil_on_err c "GET" (listProjectRunnersPath (Int.repr n)) _
        decodeRunnerListPtr
    | str s =>
      exact runEndpoint_nil_on_err c "GET" (listProjectRunnersPath s) _ decodeRunnerListPtr
    | other shown => exact Or.inl rfl
  · cases rid with
    | int n =>
      exact runEndpoint_nil_on_err c "POST" (enableProjectRunnerPath (Int.repr n)) _
        decodeRunnerPtr
    | str s =>
      exact runEndpoint_nil_on_err c "POST" (enableProjectRunnerPath s) _ decodeRunnerPtr
    | other shown => exact Or.inl rfl

/-- C7: decoding a well-formed JSON array of runner objects yields exactly
the encoded list — same length, same `id`, `description`, `active`,
`is_shared`, `name`, `online` and `status` values — both at the decoder for
the `[]*Runner` target and through `ListRunners`, `ListAllRunners` and
`ListProjectRunners` run against a client whose execute step returns that
array. -/
theorem c7_runner_list_roundtrip (rs : List Runner) (r0 : Response)
    (lopt : Option ListRunnersOptions) (popt : Option ListProjectRunnersOptions) :
    decodeRunnerListPtr (Json.arr (rs.map encodeRunner)) = .ok (some rs) ∧
    RunnersService.ListRunners
        ⟨⟨fun _ _ _ => none, fun _ => .ok r0 (Json.arr (rs.map encodeRunner))⟩⟩ lopt =
      (some rs, some r0, none) ∧
    RunnersService.ListAllRunners
        ⟨⟨fun _ _ _ => none, fun _ => .ok r0 (Json.arr (rs.map encodeRunner))⟩⟩ lopt =
      (some rs, some r0, none) ∧
    RunnersService.ListProjectRunners
        ⟨⟨fun _ _ _ => none, fun _ => .ok r0 (Json.arr (rs.map encodeRunner))⟩⟩
        (.int 5) popt =
      (some rs, some r0, none) := by
  have hdec : decodeRunnerListPtr (Json.arr (rs.map encodeRunner)) = .ok (some rs) := by
    simp [decodeRunnerListPtr, Except.map,
      decodeJsonList_map decodeRunner encodeRunner decodeRunner_encodeRunner]
  refine ⟨hdec, ?_, ?_, ?_⟩ <;>
    simp [RunnersService.ListRunners, RunnersService.ListAllRunners,
      RunnersService.ListProjectRunners, parseID, Client.newRequest, Client.doPtr,
      maskOnErr, hdec]

/-- C8: the authentication token of the runner-details record is bound to
the wire key `Token`, with its capitalized, non-standard casing: marshalling
a details record emits the key `Token` (and no lowercase `token` key), and
unmarshalling a details response reads the token from the key `Token`. -/
theorem c8_token_wire_key (d : RunnersDetails) :
    objLookup (encodeRunnersDetails d) "Token" = some (.str d.Token) ∧
    objLookup (encodeRunnersDetails d) "token" = none ∧
    (decodeRunnersDetails (encodeRunnersDetails d)).map RunnersDetails.Token =
      .ok d.Token := by
  refine ⟨rfl, rfl, ?_⟩
  rw [decodeRunnersDetails_encode]
  rfl

/-- C10: every endpoint function distinguishes the failure stage through
its response-metadata result.  On identifier-normalization failure the
response metadata is nil (first seven conjuncts); on request-construction
failure — a client whose request constructor fails with `e` — the response
metadata is nil and `e` is passed through (next nine); on execution failure
— a client whose execute step fails with `e'` alongside arbitrary, possibly
non-nil, metadata `oresp` — that metadata is passed through unchanged (next
nine); and on decode failure — a client whose execute step succeeds with
metadata `r0` and an undecodable body — the execute step's metadata `r0` is
passed through alongside the decode error (last seven). -/
theorem c10_response_metadata_stages (c : Client) (shown : String)
    (t : Request → TransportResult) (e e' : GoError) (oresp : Option Response)
    (r0 : Response) (lopt : Option ListRunnersOptions)
    (uopt : Option UpdateRunnersDetailsOptions) (jopt : Option ListRunnersJobsOptions)
    (popt : Option ListProjectRunnersOptions) (eopt : Option EnableProjectRunnerOptions) :
    (RunnersService.GetRunnerDetails ⟨c⟩ (.other shown)).2.1 = none ∧
    (RunnersService.UpdateRunnersDetails ⟨c⟩ (.other shown) uopt).2.1 = none ∧
    (RunnersService.ListRunnerJobs ⟨c⟩ (.other shown) jopt).2.1 = none ∧
    (RunnersService.ListProjectRunners ⟨c⟩ (.other shown) popt).2.1 = none ∧
    (RunnersService.EnableProjectRunner ⟨c⟩ (.other shown) eopt).2.1 = none ∧
    (RunnersService.RemoveARunner ⟨c⟩ (.other shown)).1 = none ∧
    (RunnersService.DisableProjectRunner ⟨c⟩ (.other shown) (.int 7)).1 = none ∧
    RunnersService.ListRunners ⟨⟨fun _ _ _ => some e, t⟩⟩ lopt = (none, none, some e) ∧
    RunnersService.ListAllRunners ⟨⟨fun _ _ _ => some e, t⟩⟩ lopt = (none, none, some e) ∧
    RunnersService.GetRunnerDetails ⟨⟨fun _ _ _ => some e, t⟩⟩ (.int 3) =
      (none, none, some e) ∧
    RunnersService.UpdateRunnersDetails ⟨⟨fun _ _ _ => some e, t⟩⟩ (.int 3) uopt =
      (none, none, some e) ∧
    RunnersService.RemoveARunner ⟨⟨fun _ _ _ => some e, t⟩⟩ (.int 3) = (none, some e) ∧
    RunnersService.ListRunnerJobs ⟨⟨fun _ _ _ => some e, t⟩⟩ (.int 3) jopt =
      (none, none, some e) ∧
    RunnersService.ListProjectRunners ⟨⟨fun _ _ _ => some e, t⟩⟩ (.int 3) popt =
      (none, none, some e) ∧
    RunnersService.EnableProjectRunner ⟨⟨fun _ _ _ => some e, t⟩⟩ (.int 3) eopt =
      (none, none, some e) ∧
    RunnersService.DisableProjectRunner ⟨⟨fun _ _ _ => some e, t⟩⟩ (.int 3) (.int 7) =
      (none, some e) ∧
    RunnersService.ListRunners ⟨⟨fun _ _ _ => none, fun _ => .fail oresp e'⟩⟩ lopt =
      (none, oresp, some e') ∧
    RunnersService.ListAllRunners ⟨⟨fun _ _ _ => none, fun _ => .fail oresp e'⟩⟩ lopt =
      (none, oresp, some e') ∧
    RunnersService.GetRunnerDetails ⟨⟨fun _ _ _ => none, fun _ => .fail oresp e'⟩⟩ (.int 3) =
      (none, oresp, some e') ∧
    RunnersService.UpdateRunnersDetails ⟨⟨fun _ _ _ => none, fun _ => .fail oresp e'⟩⟩
        (.int 3) uopt =
      (none, oresp, some e') ∧
    RunnersService.RemoveARunner ⟨⟨fun _ _ _ => none, fun _ => .fail oresp e'⟩⟩ (.int 3) =
      (oresp, some e') ∧
    RunnersService.ListRunnerJobs ⟨⟨fun _ _ _ => none, fun _ => .fail oresp e'⟩⟩
        (.int 3) jopt =
      (none, oresp, some e') ∧
    RunnersService.ListProjectRunners ⟨⟨fun _ _ _ => none, fun _ => .fail oresp e'⟩⟩
        (.int 3) popt =
      (none, oresp, some e') ∧
    RunnersService.EnableProjectRunner ⟨⟨fun _ _ _ => none, fun _ => .fail oresp e'⟩⟩
        (.int 3) eopt =
      (none, oresp, some e') ∧
    RunnersService.DisableProjectRunner ⟨⟨fun _ _ _ => none, fun _ => .fail oresp e'⟩⟩
        (.int 3) (.int 7) =
      (oresp, some e') ∧
    RunnersService.ListRunners ⟨⟨fun _ _ _ => none, fun _ => .ok r0 (Json.num 0)⟩⟩ lopt =
      (none, some r0, some "json: cannot unmarshal value into []*Runner") ∧
    RunnersService.ListAllRunners ⟨⟨fun _ _ _ => none, fun _ => .ok r0 (Json.num 0)⟩⟩ lopt =
      (none, some r0, some "json: cannot unmarshal value into []*Runner") ∧
    RunnersService.GetRunnerDetails ⟨⟨fun _ _ _ => none, fun _ => .ok r0 (Json.num 0)⟩⟩
        (.int 3) =
      (none, some r0, some "json: cannot unmarshal value into *RunnersDetails") ∧
    RunnersService.UpdateRunnersDetails ⟨⟨fun _ _ _ => none, fun _ => .ok r0 (Json.num 0)⟩⟩
        (.int 3) uopt =
      (none, some r0, some "json: cannot unmarshal value into *RunnersDetails") ∧
    RunnersService.ListRunnerJobs ⟨⟨fun _ _ _ => none, fun _ => .ok r0 (Json.num 0)⟩⟩
        (.int 3) jopt =
      (none, some r0, some "json: cannot unmarshal value into []*Job") ∧
    RunnersService.ListProjectRunners ⟨⟨fun _ _ _ => none, fun _ => .ok r0 (Json.num 0)⟩⟩
        (.int 3) popt =
      (none, some r0, some "json: cannot unmarshal value into []*Runner") ∧
    RunnersService.EnableProjectRunner ⟨⟨fun _ _ _ => none, fun _ => .ok r0 (Json.num 0)⟩⟩
        (.int 3) eopt =
      (none, some r0, some "json: cannot unmarshal value into *Runner") :=
  ⟨rfl, rfl, rfl, rfl, rfl, rfl, rfl, rfl, rfl, rfl, rfl, rfl, rfl, rfl, rfl, rfl,
   rfl, rfl, rfl, rfl, rfl, rfl, rfl, rfl, rfl, rfl, rfl, rfl, rfl, rfl, rfl, rfl⟩
